import Mathlib

/-!
Shallow embedding of `src/query.py` (jwest33/resume-parser): the hybrid
retrieval fusion component `CustomRetriever` together with `load_documents`
and the relevant wiring of `create_query_engines`.

Modelling conventions:
- Python exceptions become `Except PyErr`.
- A `NodeWithScore` keeps the two fields the fusion logic reads: the node id
  (`n.node.node_id`) and the score. The fusion code never computes with
  scores (it only carries them along), so the score is modelled as `Int`.
- A Python `dict` built by inserting a sequence of items with
  last-writer-wins overwrite is modelled by its insertion sequence; lookup
  finds the last inserted item with the given key.
- A Python `set` of ids is modelled as a `Finset String`; iterating a
  Python set has an unspecified order, modelled here by `Finset.toList`.
- Upstream retrievers are modelled as functions from the query string to
  `Except PyErr (List NodeWithScore)`: they may fail, and `_retrieve` calls
  them with no try/except, so their errors propagate unchanged.
-/

set_option autoImplicit false

/-- Python exception values, as far as this script distinguishes them.
`upstream` stands for an arbitrary exception raised inside an external
collaborator (reader, index, retriever), identified by an opaque code.
`retrievalError` is Modelled from the spec: the spec's §7 names a
`RetrievalError` / `UpstreamRetrievalError` wrapper for upstream failures;
no such wrapper class exists anywhere in `src/query.py`, so it is declared
here only so that statements about wrapping can be expressed. -/
inductive PyErr where
  | valueError (msg : String)
  | keyError (key : String)
  | runtimeError (msg : String)
  | upstream (code : Nat)
  | retrievalError (cause : PyErr)
deriving DecidableEq

/-- Python `str(e)` on an exception, used by `load_documents` to build its
error message. The exact rendering is opaque to every claim; any injective
enough rendering works, and the claims only use it symbolically. -/
def PyErr.str : PyErr → String
  | PyErr.valueError msg => msg
  | PyErr.keyError key => key
  | PyErr.runtimeError msg => msg
  | PyErr.upstream code => toString code
  | PyErr.retrievalError cause => cause.str

/-- A scored reference to a content unit, restricted to the fields the
fusion logic reads: `n.node.node_id` and the score it carries along. -/
structure NodeWithScore where
  node_id : String
  score : Int
deriving DecidableEq

/-- A loaded document (payload opaque to all claims). -/
structure Document where
  text : String
deriving DecidableEq

/-- From `load_documents` in src/query.py: calls
`SimpleDirectoryReader(input_dir=file_path).load_data()` (modelled by the
external function `load_data`), returns its result on success, and on any
exception `e` raises `RuntimeError(f"Failed to load documents: \x7bstr(e)\x7d")`. -/
def load_documents (load_data : String → Except PyErr (List Document))
    (file_path : String) : Except PyErr (List Document) :=
  match load_data file_path with
  | Except.ok docs => Except.ok docs
  | Except.error e =>
      Except.error (PyErr.runtimeError ("Failed to load documents: " ++ e.str))

/-- The set comprehension `{n.node.node_id for n in ns}` from `_retrieve`:
the set of node ids of a result sequence. -/
def idSet (ns : List NodeWithScore) : Finset String :=
  (ns.map NodeWithScore.node_id).toFinset

/-- Lookup in the Python dict built by inserting the items of `ns` in order,
keyed by node id, with last-writer-wins overwrite: the entry for `key` is
the last item of `ns` whose id is `key`. -/
def dictLookup (ns : List NodeWithScore) (key : String) : Option NodeWithScore :=
  ns.reverse.find? (fun n => n.node_id == key)

/-- From `_retrieve`: `combined_dict = {n.node.node_id: n for n in vector_nodes}`
followed by `combined_dict.update({n.node.node_id: n for n in keyword_nodes})`.
The dict is modelled by its insertion sequence: all of V first, then all of K,
so `dictLookup` on it realizes the overwrite semantics (K wins on collision). -/
def combined_dict (vector_nodes keyword_nodes : List NodeWithScore) :
    List NodeWithScore :=
  vector_nodes ++ keyword_nodes

/-- Python `combined_dict[rid]`: returns the entry, or raises `KeyError`
when the key is absent. -/
def dictGet (ns : List NodeWithScore) (key : String) : Except PyErr NodeWithScore :=
  match dictLookup ns key with
  | some n => Except.ok n
  | none => Except.error (PyErr.keyError key)

/-- The set comprehension `{n.node.node_id for n in ns}` again, but as the
concrete deduplicated list the iteration over the Python set walks through:
Python's set iteration order is unspecified, and `List.dedup` fixes one
concrete order with the right membership and no duplicates. -/
def idList (ns : List NodeWithScore) : List String :=
  (ns.map NodeWithScore.node_id).dedup

/-- From `_retrieve`: `retrieve_ids = vector_ids.intersection(keyword_ids)`
when the mode is "AND", else `vector_ids.union(keyword_ids)` — as the
concrete duplicate-free id list the final comprehension iterates over. -/
def retrieve_ids (mode : String) (vector_nodes keyword_nodes : List NodeWithScore) :
    List String :=
  if mode = "AND" then
    (idList vector_nodes).filter (fun id => decide (id ∈ idList keyword_nodes))
  else
    (idList vector_nodes ++ idList keyword_nodes).dedup

/-- The `CustomRetriever` object: the two upstream retrievers (modelled by
their observable behavior, query → outcome) and the mode string, as stored
by `__init__`. -/
structure CustomRetriever where
  vector_retriever : String → Except PyErr (List NodeWithScore)
  keyword_retriever : String → Except PyErr (List NodeWithScore)
  mode : String

/-- From `CustomRetriever.__init__` in src/query.py: raises
`ValueError("Invalid mode.")` when `mode not in ("AND", "OR")`, otherwise
completes construction storing both retrievers and the mode. -/
def CustomRetriever.init
    (vector_retriever keyword_retriever : String → Except PyErr (List NodeWithScore))
    (mode : String) : Except PyErr CustomRetriever :=
  if ¬ (mode = "AND" ∨ mode = "OR") then
    Except.error (PyErr.valueError "Invalid mode.")
  else
    Except.ok { vector_retriever := vector_retriever,
                keyword_retriever := keyword_retriever,
                mode := mode }

/-- The default value of the `mode` parameter in the `__init__` signature
(`mode: str = "OR"`). -/
def CustomRetriever.defaultMode : String := "OR"

/-- From `CustomRetriever._retrieve` in src/query.py: call both upstream
retrievers (vector first; either call's exception propagates, aborting the
whole operation), build the combined dict and the mode-dependent id set, and
return `[combined_dict[rid] for rid in retrieve_ids]`. -/
def CustomRetriever._retrieve (r : CustomRetriever) (query_bundle : String) :
    Except PyErr (List NodeWithScore) := do
  let vector_nodes ← r.vector_retriever query_bundle
  let keyword_nodes ← r.keyword_retriever query_bundle
  (retrieve_ids r.mode vector_nodes keyword_nodes).mapM
    (dictGet (combined_dict vector_nodes keyword_nodes))

/-- From `create_query_engines` in src/query.py:
`custom_retriever = CustomRetriever(vector_retriever, keyword_retriever)` —
the mode argument is omitted, so the signature default applies. -/
def create_query_engines_custom_retriever
    (vector_retriever keyword_retriever : String → Except PyErr (List NodeWithScore)) :
    Except PyErr CustomRetriever :=
  CustomRetriever.init vector_retriever keyword_retriever CustomRetriever.defaultMode

/-- A `CustomRetriever` whose upstream retrievers succeed and return the
fixed sequences V and K on every query: the configuration under which the
pure-merge claims quantify over upstream outputs. -/
def pureRetriever (mode : String) (V K : List NodeWithScore) : CustomRetriever :=
  { vector_retriever := fun _ => Except.ok V,
    keyword_retriever := fun _ => Except.ok K,
    mode := mode }

/-- Default node used only to express `Option.getD` on lookups that are
proved to succeed. -/
def dfltNode : NodeWithScore := { node_id := "", score := 0 }

/-- The merge result as a plain list: one item per id of `retrieve_ids`,
each obtained from the combined dict. `_retrieve` on succeeding upstreams
is proved to return exactly this list. -/
def retrieve_nodes (mode : String) (V K : List NodeWithScore) : List NodeWithScore :=
  (retrieve_ids mode V K).map
    (fun rid => (dictLookup (combined_dict V K) rid).getD dfltNode)

/-! ### Basic lemmas about the id sets and the dict model -/

theorem mem_idList {ns : List NodeWithScore} {id : String} :
    id ∈ idList ns ↔ ∃ n ∈ ns, n.node_id = id := by
  simp [idList, List.mem_dedup, List.mem_map]

theorem mem_idSet {ns : List NodeWithScore} {id : String} :
    id ∈ idSet ns ↔ id ∈ idList ns := by
  simp [idSet, idList, List.mem_toFinset, List.mem_dedup]

theorem dictLookup_isSome {ns : List NodeWithScore} {key : String} :
    (dictLookup ns key).isSome ↔ key ∈ idList ns := by
  simp [dictLookup, List.find?_isSome, List.mem_reverse, mem_idList]

theorem dictLookup_eq_some {ns : List NodeWithScore} {key : String} {n : NodeWithScore}
    (h : dictLookup ns key = some n) : n ∈ ns ∧ n.node_id = key := by
  unfold dictLookup at h
  refine ⟨?_, ?_⟩
  · have hm := List.mem_of_find?_eq_some h
    simpa [List.mem_reverse] using hm
  · have hp := List.find?_some h
    simpa using hp

theorem mem_retrieve_ids {mode : String} {V K : List NodeWithScore} {id : String} :
    id ∈ retrieve_ids mode V K ↔
      (if mode = "AND" then id ∈ idList V ∧ id ∈ idList K
       else id ∈ idList V ∨ id ∈ idList K) := by
  by_cases h : mode = "AND" <;>
    simp [retrieve_ids, h, List.mem_filter, List.mem_dedup, List.mem_append]

theorem nodup_retrieve_ids (mode : String) (V K : List NodeWithScore) :
    (retrieve_ids mode V K).Nodup := by
  unfold retrieve_ids
  split
  · exact List.Nodup.filter _ (List.nodup_dedup _)
  · exact List.nodup_dedup _

theorem mem_idList_append {V K : List NodeWithScore} {id : String} :
    id ∈ idList (V ++ K) ↔ id ∈ idList V ∨ id ∈ idList K := by
  simp [idList, List.mem_dedup, List.mem_append]

theorem retrieve_ids_subset {mode : String} {V K : List NodeWithScore} {id : String}
    (h : id ∈ retrieve_ids mode V K) : id ∈ idList (combined_dict V K) := by
  simp only [combined_dict, mem_idList_append]
  rw [mem_retrieve_ids] at h
  by_cases hm : mode = "AND" <;> simp [hm] at h <;> tauto

theorem dictGet_eq_ok {ns : List NodeWithScore} {id : String} (h : id ∈ idList ns) :
    dictGet ns id = Except.ok ((dictLookup ns id).getD dfltNode) := by
  have hs : (dictLookup ns id).isSome := dictLookup_isSome.mpr h
  cases hl : dictLookup ns id with
  | none => rw [hl] at hs; simp at hs
  | some n => simp [dictGet, hl]

theorem mapM_eq_ok_map {α β : Type} (f : α → Except PyErr β) (g : α → β) :
    ∀ l : List α, (∀ a ∈ l, f a = Except.ok (g a)) →
      l.mapM f = Except.ok (l.map g) := by
  intro l
  induction l with
  | nil => intro _; rfl
  | cons a t ih =>
      intro h
      rw [List.mapM_cons, h a (List.mem_cons_self a t),
        ih (fun x hx => h x (List.mem_cons_of_mem a hx))]
      rfl

theorem retrieve_eval (mode : String) (V K : List NodeWithScore) (q : String) :
    (pureRetriever mode V K)._retrieve q = Except.ok (retrieve_nodes mode V K) :=
  mapM_eq_ok_map _ _ _ (fun _ hid => dictGet_eq_ok (retrieve_ids_subset hid))

theorem getD_node_id {mode : String} {V K : List NodeWithScore} {rid : String}
    (h : rid ∈ retrieve_ids mode V K) :
    ((dictLookup (combined_dict V K) rid).getD dfltNode).node_id = rid := by
  have hmem := retrieve_ids_subset h
  have hs : (dictLookup (combined_dict V K) rid).isSome := dictLookup_isSome.mpr hmem
  cases hl : dictLookup (combined_dict V K) rid with
  | none => rw [hl] at hs; simp at hs
  | some n => simp [hl, (dictLookup_eq_some hl).2]

theorem map_node_id_retrieve_nodes (mode : String) (V K : List NodeWithScore) :
    (retrieve_nodes mode V K).map NodeWithScore.node_id = retrieve_ids mode V K := by
  unfold retrieve_nodes
  rw [List.map_map]
  have hcongr : ∀ rid ∈ retrieve_ids mode V K,
      (NodeWithScore.node_id ∘
        fun s => (dictLookup (combined_dict V K) s).getD dfltNode) rid =
      (fun s => s) rid := by
    intro rid hrid
    exact getD_node_id hrid
  rw [List.map_congr_left hcongr]
  exact List.map_id _

theorem toFinset_retrieve_ids (mode : String) (V K : List NodeWithScore) :
    (retrieve_ids mode V K).toFinset =
      if mode = "AND" then idSet V ∩ idSet K else idSet V ∪ idSet K := by
  ext id
  rw [List.mem_toFinset, mem_retrieve_ids]
  by_cases h : mode = "AND" <;>
    simp [h, mem_idSet, Finset.mem_inter, Finset.mem_union]

theorem dictLookup_append_right {V K : List NodeWithScore} {id : String}
    (h : id ∈ idList K) : dictLookup (V ++ K) id = dictLookup K id := by
  have hs : (dictLookup K id).isSome := dictLookup_isSome.mpr h
  unfold dictLookup at hs ⊢
  rw [List.reverse_append, List.find?_append]
  cases hf : K.reverse.find? (fun n => n.node_id == id) with
  | none => rw [hf] at hs; simp at hs
  | some n => simp [hf]

/-! ### Claim theorems -/

/-- C1: for every pair of upstream result sequences V and K, the set of
node ids of the collection returned by `_retrieve` equals
`idSet V ∩ idSet K` when the configured mode is "AND" and
`idSet V ∪ idSet K` otherwise (in particular for "OR"), with no
extraneous ids. -/
theorem retrieve_id_set_policy (mode : String) (V K : List NodeWithScore) (q : String) :
    Except.map idSet ((pureRetriever mode V K)._retrieve q) =
      Except.ok (if mode = "AND" then idSet V ∩ idSet K else idSet V ∪ idSet K) := by
  rw [retrieve_eval]
  have h1 : idSet (retrieve_nodes mode V K) = (retrieve_ids mode V K).toFinset := by
    unfold idSet
    rw [map_node_id_retrieve_nodes]
  simp [Except.map, h1, toFinset_retrieve_ids]

/-- C2: for every id present in both upstream sequences, the item returned
by `_retrieve` for that id is the keyword retriever's item — the last item
of K carrying that id, because the lookup table inserts all of V first and
then all of K with last-writer-wins overwrite — and it is the unique item
of the output with that id. -/
theorem retrieve_keyword_overwrite (mode : String) (V K : List NodeWithScore)
    (q id : String) (hv : id ∈ idSet V) (hk : id ∈ idSet K) :
    ∃ out n, (pureRetriever mode V K)._retrieve q = Except.ok out ∧
      dictLookup K id = some n ∧ n ∈ K ∧ n.node_id = id ∧ n ∈ out ∧
      ∀ m ∈ out, m.node_id = id → m = n := by
  have hv' : id ∈ idList V := mem_idSet.mp hv
  have hk' : id ∈ idList K := mem_idSet.mp hk
  have hs : (dictLookup K id).isSome := dictLookup_isSome.mpr hk'
  cases hn : dictLookup K id with
  | none => rw [hn] at hs; simp at hs
  | some n =>
      have hnK := dictLookup_eq_some hn
      have hid_mem : id ∈ retrieve_ids mode V K := by
        rw [mem_retrieve_ids]
        by_cases hm : mode = "AND" <;> simp [hm, hv', hk']
      have hcomb : dictLookup (combined_dict V K) id = some n := by
        simp only [combined_dict]
        rw [dictLookup_append_right hk', hn]
      refine ⟨retrieve_nodes mode V K, n, retrieve_eval mode V K q, rfl, hnK.1, hnK.2, ?_, ?_⟩
      · unfold retrieve_nodes
        refine List.mem_map.mpr ⟨id, hid_mem, ?_⟩
        simp [hcomb]
      · intro m hm hmid
        unfold retrieve_nodes at hm
        obtain ⟨rid, hrid, hgd⟩ := List.mem_map.mp hm
        have : rid = id := by
          rw [← hmid, ← hgd]
          exact (getD_node_id hrid).symm
        rw [← hgd, this]
        simp [hcomb]

/-- Witness for C2 at the spec's scenario fragment: V carries item b with
score 5, K carries item b with score 7; the fused item for id b is K's. -/
theorem retrieve_keyword_overwrite_witness :
    ∃ out n,
      (pureRetriever "OR" [{ node_id := "b", score := 5 }]
        [{ node_id := "b", score := 7 }])._retrieve "q" = Except.ok out ∧
      dictLookup [{ node_id := "b", score := 7 }] "b" = some n ∧
      n ∈ [{ node_id := "b", score := 7 }] ∧ n.node_id = "b" ∧ n ∈ out ∧
      ∀ m ∈ out, m.node_id = "b" → m = n :=
  retrieve_keyword_overwrite "OR" [{ node_id := "b", score := 5 }]
    [{ node_id := "b", score := 7 }] "q" "b" (by decide) (by decide)

/-- C3: construction validates the mode: any mode outside AND and OR yields
the ValueError and constructs nothing, while AND and OR succeed and store
the two retrievers and the mode. -/
theorem init_mode_validation
    (v k : String → Except PyErr (List NodeWithScore)) (mode : String) :
    CustomRetriever.init v k mode =
      if mode = "AND" ∨ mode = "OR" then
        Except.ok { vector_retriever := v, keyword_retriever := k, mode := mode }
      else Except.error (PyErr.valueError "Invalid mode.") := by
  unfold CustomRetriever.init
  by_cases h : mode = "AND" ∨ mode = "OR" <;> simp [h]

/-- C4 counterexample: when the vector retriever fails, `_retrieve` fails
with the upstream error itself, not with a RetrievalError wrapping it —
the code has no wrapping layer, so the claim as stated is false. -/
theorem retrieve_error_not_wrapped :
    ({ vector_retriever := fun _ => Except.error (PyErr.upstream 7),
       keyword_retriever := fun _ => Except.ok [{ node_id := "a", score := 1 }],
       mode := "OR" } : CustomRetriever)._retrieve "q" =
      Except.error (PyErr.upstream 7) ∧
    ({ vector_retriever := fun _ => Except.error (PyErr.upstream 7),
       keyword_retriever := fun _ => Except.ok [{ node_id := "a", score := 1 }],
       mode := "OR" } : CustomRetriever)._retrieve "q" ≠
      Except.error (PyErr.retrievalError (PyErr.upstream 7)) := by
  refine ⟨rfl, ?_⟩
  intro hcontra
  have h1 : (Except.error (PyErr.upstream 7) : Except PyErr (List NodeWithScore)) =
      Except.error (PyErr.retrievalError (PyErr.upstream 7)) := hcontra
  simp at h1

/-- C4 amended: if either upstream retrieve call fails, the whole
`_retrieve` fails by propagating that upstream error unchanged — in
particular no partial merge built from the other retriever is returned. -/
theorem retrieve_failure_propagation
    (v k : String → Except PyErr (List NodeWithScore)) (mode q : String) (e : PyErr) :
    (v q = Except.error e →
      ({ vector_retriever := v, keyword_retriever := k, mode := mode } :
        CustomRetriever)._retrieve q = Except.error e) ∧
    (∀ V, v q = Except.ok V → k q = Except.error e →
      ({ vector_retriever := v, keyword_retriever := k, mode := mode } :
        CustomRetriever)._retrieve q = Except.error e) := by
  constructor
  · intro h
    simp only [CustomRetriever._retrieve]
    rw [h]
    rfl
  · intro V hv hk
    simp only [CustomRetriever._retrieve]
    rw [hv, hk]
    rfl

/-- Witness for C4's amended theorem: a concrete failing vector retriever
makes the whole retrieve fail with that error. -/
theorem retrieve_failure_propagation_witness :
    ({ vector_retriever := fun _ => Except.error (PyErr.upstream 3),
       keyword_retriever := fun _ => Except.ok ([] : List NodeWithScore),
       mode := "OR" } : CustomRetriever)._retrieve "q" =
      Except.error (PyErr.upstream 3) :=
  (retrieve_failure_propagation (fun _ => Except.error (PyErr.upstream 3))
    (fun _ => Except.ok []) "OR" "q" (PyErr.upstream 3)).1 rfl

/-- C5: `_retrieve` is a pure function of the mode and the upstream
retrievers' outputs: whenever two retrievers agree on mode and their
upstream calls return the same outcomes, the resulting id sets agree. -/
theorem retrieve_pure_function (r1 r2 : CustomRetriever) (q1 q2 : String)
    (hm : r1.mode = r2.mode)
    (hv : r1.vector_retriever q1 = r2.vector_retriever q2)
    (hk : r1.keyword_retriever q1 = r2.keyword_retriever q2) :
    Except.map idSet (r1._retrieve q1) = Except.map idSet (r2._retrieve q2) := by
  unfold CustomRetriever._retrieve
  rw [hv, hk, hm]

/-- Witness for C5: two calls of the same retriever on the same query give
the same id set. -/
theorem retrieve_pure_function_witness :
    Except.map idSet
      ((pureRetriever "OR" [{ node_id := "a", score := 1 }] [])._retrieve "q") =
    Except.map idSet
      ((pureRetriever "OR" [{ node_id := "a", score := 1 }] [])._retrieve "q") :=
  retrieve_pure_function _ _ "q" "q" rfl rfl rfl

/-- C6: every id of the fused output qualifies per the mode (AND: in both
upstream id sets; otherwise: in at least one), and the output carries each
qualifying id exactly once — its id list has no duplicates, even when an id
occurs in both inputs or repeatedly in one input. -/
theorem retrieve_output_invariant (mode : String) (V K : List NodeWithScore) (q : String) :
    ∃ out, (pureRetriever mode V K)._retrieve q = Except.ok out ∧
      (out.map NodeWithScore.node_id).Nodup ∧
      ∀ id, id ∈ out.map NodeWithScore.node_id ↔
        (if mode = "AND" then id ∈ idSet V ∧ id ∈ idSet K
         else id ∈ idSet V ∨ id ∈ idSet K) := by
  refine ⟨retrieve_nodes mode V K, retrieve_eval mode V K q, ?_, ?_⟩
  · rw [map_node_id_retrieve_nodes]
    exact nodup_retrieve_ids mode V K
  · intro id
    rw [map_node_id_retrieve_nodes, mem_retrieve_ids]
    by_cases h : mode = "AND" <;> simp [h, mem_idSet]

/-- C7: `load_documents` returns the loader's collection on success, and on
any loader failure e fails with the RuntimeError whose message is the
descriptive text followed by the rendering of the original cause; the
loader is consulted exactly once (the definition makes a single call). -/
theorem load_documents_contract
    (load_data : String → Except PyErr (List Document)) (file_path : String) :
    (∀ docs, load_data file_path = Except.ok docs →
      load_documents load_data file_path = Except.ok docs) ∧
    (∀ e, load_data file_path = Except.error e →
      load_documents load_data file_path =
        Except.error (PyErr.runtimeError ("Failed to load documents: " ++ e.str))) := by
  constructor
  · intro docs h
    unfold load_documents
    rw [h]
  · intro e h
    unfold load_documents
    rw [h]

/-- Witness for C7: a loader failing with an opaque upstream error yields
the wrapped RuntimeError with the descriptive message. -/
theorem load_documents_contract_witness :
    load_documents (fun _ => Except.error (PyErr.upstream 3)) "resume" =
      Except.error
        (PyErr.runtimeError ("Failed to load documents: " ++ (PyErr.upstream 3).str)) :=
  (load_documents_contract (fun _ => Except.error (PyErr.upstream 3)) "resume").2
    (PyErr.upstream 3) rfl

/-- C8: with both upstream sequences empty, `_retrieve` returns the empty
collection and no error, in both AND and OR modes. -/
theorem retrieve_empty_inputs :
    (pureRetriever "AND" [] [])._retrieve "q" = Except.ok [] ∧
    (pureRetriever "OR" [] [])._retrieve "q" = Except.ok [] :=
  ⟨rfl, rfl⟩

/-- C9: the wiring in create_query_engines constructs the custom retriever
without a mode argument, so the signature default applies and the
constructed retriever's mode is "OR". -/
theorem default_mode_is_union (v k : String → Except PyErr (List NodeWithScore)) :
    create_query_engines_custom_retriever v k =
      Except.ok { vector_retriever := v, keyword_retriever := k, mode := "OR" } := by
  unfold create_query_engines_custom_retriever CustomRetriever.init CustomRetriever.defaultMode
  simp

/-- C10: the final lookup is total — every id of the computed id set is a
key of the combined dict built from V then K, and consequently `_retrieve`
on succeeding upstreams never fails with a KeyError: it returns some list. -/
theorem combined_dict_covers_retrieve_ids
    (mode : String) (V K : List NodeWithScore) (q : String) :
    (∀ id, id ∈ retrieve_ids mode V K → (dictLookup (combined_dict V K) id).isSome) ∧
    ∃ out, (pureRetriever mode V K)._retrieve q = Except.ok out :=
  ⟨fun _ hid => dictLookup_isSome.mpr (retrieve_ids_subset hid),
    ⟨retrieve_nodes mode V K, retrieve_eval mode V K q⟩⟩

/-- Witness for C10: a concrete id of the computed id set is a key of the
combined dict. -/
theorem combined_dict_covers_witness :
    (dictLookup
      (combined_dict [{ node_id := "a", score := 1 }] [{ node_id := "a", score := 2 }])
      "a").isSome :=
  (combined_dict_covers_retrieve_ids "AND" [{ node_id := "a", score := 1 }]
    [{ node_id := "a", score := 2 }] "q").1 "a" (by decide)
